import Mathlib

/-!
# eGovernmentOS first-run WebUI: data source, WebUI config, and the profile-factory patch

A shallow embedding of

* `chrome/browser/ui/webui/nxtscape_first_run.h` (class `UFRDataSource`,
  `NxtscapeFirstRunUIConfig`, `NxtscapeFirstRun`), and
* the unified diff `chromium_patches/chrome/browser/profiles/chrome_browser_main_extra_parts_profiles.cc`,

followed by the properties established about them.
-/

namespace FirstRun

/-! ## Types of the host framework used by the data source -/

/-- Modelled from the spec: the enum `network::mojom::CSPDirectiveName` is declared in
`services/network/public/mojom/content_security_policy.mojom`, which is not among the sources.
The four enumerators the code names are kept; every other enumerator of the enum
("all other directives") is `Other n`, one for each tag `n`. -/
inductive CSPDirectiveName where
  | ScriptSrc
  | StyleSrc
  | FontSrc
  | ImgSrc
  | Other (n : Nat)
  deriving DecidableEq, Repr

/-- A `GURL` as the data source receives it: the components of the requested URL.
The class is declared in `url/gurl.h`; no method of the data source inspects it. -/
structure GURL where
  scheme : String
  host : String
  path : String
  query : String
  deriving DecidableEq, Repr

/-- The `content::WebContents::Getter` argument: a callback that yields the requesting
`WebContents`, here the identifier of that contents if there is one. -/
structure WebContentsGetter where
  Run : Unit → Option Nat

/-- A `base::RefCountedString`: a reference-counted buffer owning a `std::string`. -/
structure RefCountedString where
  data : String
  deriving DecidableEq, Repr

/-- The number of bytes of the buffer, `RefCountedString::size()`. -/
def RefCountedString.size (b : RefCountedString) : Nat := b.data.utf8ByteSize

/-- `base::MakeRefCounted<base::RefCountedString>(std::move(s))`: a fresh buffer owning `s`;
as a `scoped_refptr` it is never null. -/
def MakeRefCounted (s : String) : Option RefCountedString := some ⟨s⟩

/-- `GotDataCallback`, a `base::OnceCallback<void(scoped_refptr<base::RefCountedMemory>)>`:
running it with a (possibly null) buffer acts on the state `σ` of its owner. -/
structure GotDataCallback (σ : Type) where
  Run : Option RefCountedString → σ → σ

/-! ## The served document -/

/-- Lines 54 to 62 of nxtscape_first_run.h, inside the raw string literal of StartDataRequest. -/
def sourcePreamble : List String := [
  "",
  "<!DOCTYPE html>",
  "<html lang=\"en\">",
  "",
  "<head>",
  "    <title>eGovernmentOS: First Run</title>",
  "    <meta charset=\"UTF-8\">",
  "    <meta name=\"color-scheme\" content=\"light dark\">",
  "    <link rel=\"icon\" type=\"image/svg+xml\" href=\"data:image/svg+xml,%3Csvg version='1.1' xmlns='http://www.w3.org/2000/svg' viewBox='0 0 1024 1024'%3E%3Cstyle%3E.st0%7Bfill:none%7D.st1%7Bfill:none;stroke:%231266F1;stroke-width:209;stroke-miterlimit:10%7D%3C/style%3E%3Cg%3E%3Ccircle class='st0' cx='513.3' cy='510.8' r='454.9'/%3E%3Ccircle class='st1' cx='758.2' cy='988.4' r='411.5'/%3E%3Ccircle class='st1' cx='262' cy='81.4' r='411.5'/%3E%3C/g%3E%3C/svg%3E\">"
]

/-- Lines 63 to 645 of nxtscape_first_run.h, inside the raw string literal of StartDataRequest. -/
def sourceStyle : List String := [
  "    <style>",
  "        @import url(chrome://resources/css/text_defaults_md.css);",
  "",
  "        :root \x7b",
  "            --bg: #FAF7F3;",
  "            --text: #1F1D1B;",
  "            --muted: #6B7280;",
  "            --border: #E8E2DA;",
  "            --card: #FFFFFF;",
  "            --accent: #1266F1;",
  "            --cta: #231F1A;",
  "            --link: #1F2937;",
  "            --chip-bg: #F1F4F8;",
  "            --chip-border: #E2E8F0;",
  "            --chip-text: #0F172A;",
  "            --kbd-bg: #F5F7FA;",
  "            --kbd-border: #E5E7EB;",
  "            --kbd-border2: #DBDEE3;",
  "            --kbd-text: #111827;",
  "            --note-bg: #F9FAFB;",
  "            --note-border: #D6D3CE;",
  "            --note-text: #374151;",
  "            --badge-bg: #FFFFFFAA;",
  "            --badge-border: var(--border);",
  "            --badge-text: #4B5563;",
  "            --linkpill-bg: var(--card);",
  "            --linkpill-text: var(--text);",
  "            --social-icon: #6b7280;",
  "            --shadow-lg: 0 24px 40px -20px rgba(0, 0, 0, .12);",
  "            --shadow-md: 0 10px 30px rgba(0, 0, 0, 0.06);",
  "            --accent-purple: #a78bfa;",
  "            --accent-teal: #22d3ee;",
  "            --accent-amber: #f59e0b;",
  "            --feature-card-h: 128px;",
  "        \x7d",
  "",
  "        /* Use Roboto everywhere */",
  "        #titanium-bg \x7b",
  "            position: fixed;",
  "            top: 0;",
  "            left: 0;",
  "            width: 100%;",
  "            height: 100%;",
  "            z-index: -1;",
  "            /* Background handled by canvas draw, but set fallback */",
  "            background: #0b0f14;",
  "        \x7d",
  "        html \x7b",
  "            color: var(--text);",
  "            /* Make transparent so canvas shows through if needed, though canvas is fixed */",
  "            background: transparent;",
  "            line-height: 1.6;",
  "            font-family: \"Roboto\", -apple-system, BlinkMacSystemFont, \"Segoe UI\", Roboto, Helvetica, Arial, \"Apple Color Emoji\", \"Segoe UI Emoji\";",
  "            font-size: 16px;",
  "        \x7d",
  "",
  "        a \x7b",
  "            color: var(--link);",
  "            text-decoration: none;",
  "        \x7d",
  "",
  "        a:hover \x7b",
  "            text-decoration: underline;",
  "        \x7d",
  "",
  "        h2 \x7b",
  "            margin: 0;",
  "            font-size: 1.5rem;",
  "            font-weight: 700;",
  "            letter-spacing: .1px;",
  "        \x7d",
  "",
  "        p \x7b",
  "            margin: 0;",
  "        \x7d",
  "",
  "        ul,",
  "        ol \x7b",
  "            padding-left: 1.25rem;",
  "            margin: .5rem 0;",
  "        \x7d",
  "",
  "        code \x7b",
  "            background: var(--chip-bg);",
  "            padding: .2rem .5rem;",
  "            border: 1px solid var(--chip-border);",
  "            border-radius: .5rem;",
  "            font-size: .875rem;",
  "            color: var(--chip-text)",
  "        \x7d",
  "",
  "        kbd \x7b",
  "            font-family: ui-monospace, SFMono-Regular, Menlo, Monaco, Consolas, monospace;",
  "            background: var(--kbd-bg);",
  "            border: 1px solid var(--kbd-border);",
  "            border-bottom-color: var(--kbd-border2);",
  "            border-radius: .35rem;",
  "            padding: .15rem .4rem;",
  "            font-size: .85rem;",
  "            color: var(--kbd-text)",
  "        \x7d",
  "",
  "        /* Base section layout and consistent vertical rhythm */",
  "        section \x7b",
  "            width: 64rem;",
  "            max-width: 92%;",
  "            margin: 0 auto 2.5rem;",
  "            padding-top: 0;",
  "        \x7d",
  "",
  "        /* Add uniform top spacing only between subsequent sections */",
  "        /* Default spacing between sections */",
  "        section+section \x7b",
  "            padding-top: 2.75rem;",
  "        \x7d",
  "",
  "        /* Tighter spacing from hero to first content section */",
  "        .hero+section \x7b",
  "            padding-top: 1.25rem;",
  "        \x7d",
  "",
  "        /* Hero */",
  "        .hero \x7b",
  "            text-align: center;",
  "            padding: 4.5rem 0 1.5rem 0;",
  "        \x7d",
  "",
  "        .hero .subtitle \x7b",
  "            font-size: 0.875rem;",
  "            font-weight: 500;",
  "            background: linear-gradient(to bottom, #93C5FD 10%, #3B82F6 45%, #93C5FD 50%, #3B82F6 55%, #93C5FD 90%);",
  "            background-size: 100% 200%;",
  "            background-clip: text;",
  "            -webkit-background-clip: text;",
  "            -webkit-text-fill-color: transparent;",
  "            color: var(--accent);",
  "            text-transform: uppercase;",
  "            letter-spacing: 2px;",
  "            margin-bottom: 1.5rem;",
  "            filter: drop-shadow(0 0 8px rgba(59, 130, 246, 0.5));",
  "        \x7d",
  "",
  "        .hero h1 \x7b",
  "            font-family: inherit;",
  "            font-size: 4.5rem;",
  "            line-height: 1.15;",
  "            margin: 0 0 1.75rem;",
  "            background: linear-gradient(to bottom, #FFFFFF 10%, #A0A0A0 45%, #FFFFFF 50%, #A0A0A0 55%, #FFFFFF 90%);",
  "            background-size: 100% 200%;",
  "            background-clip: text;",
  "            -webkit-background-clip: text;",
  "            -webkit-text-fill-color: transparent;",
  "            color: var(--text);",
  "            letter-spacing: -1px;",
  "            font-weight: 600;",
  "            filter: drop-shadow(0 1px 0 rgba(0, 0, 0, 0.5));",
  "        \x7d",
  "",
  "        .hero .accent \x7b",
  "            background: linear-gradient(to bottom, #60A5FA 10%, #1E40AF 45%, #60A5FA 50%, #1E40AF 55%, #60A5FA 90%);",
  "            background-size: 100% 200%;",
  "            background-clip: text;",
  "            -webkit-background-clip: text;",
  "            -webkit-text-fill-color: transparent;",
  "            color: var(--accent);",
  "            font-style: normal;",
  "            font-weight: 600;",
  "            filter: drop-shadow(0 1px 0 rgba(0, 0, 0, 0.5));",
  "        \x7d",
  "",
  "        .hero p \x7b",
  "            font-size: 1.05rem;",
  "            line-height: 1.6;",
  "            color: rgba(255, 255, 255, 0.8);",
  "            margin: 0 auto 2rem;",
  "            max-width: 900px;",
  "            font-weight: 300;",
  "        \x7d",
  "",
  "        .subtle \x7b",
  "            color: var(--muted);",
  "            font-size: .95rem;",
  "            margin-top: .75rem;",
  "        \x7d",
  "",
  "        .badge-row \x7b",
  "            display: flex;",
  "            justify-content: center;",
  "            gap: .5rem;",
  "            margin: .75rem 0 2.5rem;",
  "        \x7d",
  "",
  "        .badge \x7b",
  "            display: inline-flex;",
  "            align-items: center;",
  "            gap: .8rem;",
  "            padding: .6rem 1.5rem;",
  "            font-size: 0.95rem;",
  "            font-weight: 500;",
  "            color: #fff;",
  "            position: relative;",
  "            z-index: 0;",
  "            border-radius: 999px;",
  "            overflow: hidden;",
  "            box-shadow: 0 4px 20px rgba(0, 0, 0, 0.3);",
  "        \x7d",
  "",
  "        .badge::before \x7b",
  "            content: '';",
  "            position: absolute;",
  "            inset: -50%;",
  "            width: 200%;",
  "            height: 200%;",
  "            background: conic-gradient(from 0deg, transparent 0%, transparent 60%, #22d3ee 85%, #ffffff 95%, transparent 100%);",
  "            animation: rotate 4s linear infinite;",
  "            z-index: -2;",
  "        \x7d",
  "",
  "        .badge::after \x7b",
  "            content: '';",
  "            position: absolute;",
  "            inset: 1.5px;",
  "            /* Lighter, glossier gradient */",
  "            background: linear-gradient(145deg, rgba(255, 255, 255, 0.15) 0%, rgba(11, 18, 32, 0.6) 35%, rgba(11, 18, 32, 0.9) 100%);",
  "            backdrop-filter: blur(24px);",
  "            border-radius: 999px;",
  "            z-index: -1;",
  "            /* Stronger top reflection for gloss */",
  "            box-shadow: inset 0 1px 0.5px rgba(255, 255, 255, 0.6), inset 0 -1px 0.5px rgba(0, 0, 0, 0.4);",
  "        \x7d",
  "",
  "        /* Buttons */",
  "        .actions \x7b",
  "            margin-top: 1rem",
  "        \x7d",
  "",
  "        /* Remove stray space when no buttons are present */",
  "        .hero .actions:empty \x7b",
  "            display: none",
  "        \x7d",
  "",
  "        .btn \x7b",
  "            display: inline-flex;",
  "            align-items: center;",
  "            gap: .5rem;",
  "            padding: .8rem 1rem;",
  "            border-radius: 999px;",
  "            border: 1px solid transparent;",
  "            font-weight: 600;",
  "            text-decoration: none",
  "        \x7d",
  "",
  "        .btn .icon \x7b",
  "            display: inline-flex;",
  "            width: 18px;",
  "            height: 18px",
  "        \x7d",
  "",
  "        .btn .icon svg \x7b",
  "            width: 18px;",
  "            height: 18px",
  "        \x7d",
  "",
  "        .btn-dark \x7b",
  "            background: var(--cta);",
  "            color: #fff;",
  "            box-shadow: 0 8px 18px rgba(0, 0, 0, .18);",
  "        \x7d",
  "",
  "        .btn-outline \x7b",
  "            background: transparent;",
  "            color: var(--text);",
  "            border-color: var(--border);",
  "        \x7d",
  "",
  "        .btn-accent \x7b",
  "            /* Glassy Blue Button */",
  "            background: linear-gradient(135deg, rgba(18, 102, 241, 0.85), rgba(18, 102, 241, 0.65)) !important;",
  "            backdrop-filter: blur(12px);",
  "            -webkit-backdrop-filter: blur(12px);",
  "            border: 1px solid rgba(255, 255, 255, 0.3);",
  "            border-color: rgba(255, 255, 255, 0.3);",
  "            color: #fff;",
  "            box-shadow: 0 8px 32px 0 rgba(18, 102, 241, 0.4), inset 0 0 0 1px rgba(255, 255, 255, 0.2);",
  "        \x7d",
  "",
  "        .btn-accent:hover \x7b",
  "            filter: brightness(1.05)",
  "        \x7d",
  "",
  "        .btn+.btn \x7b",
  "            margin-left: .5rem",
  "        \x7d",
  "",
  "        /* Section headers */",
  "        .section-head \x7b",
  "            display: flex;",
  "            align-items: center;",
  "            justify-content: center;",
  "            margin: 0 0 1rem;",
  "        \x7d",
  "",
  "        .section-head .label \x7b",
  "            font-family: inherit;",
  "            font-size: 1.7rem;",
  "            color: var(--text);",
  "            font-weight: 700;",
  "            display: flex;",
  "            align-items: center;",
  "            gap: 12px;",
  "        \x7d",
  "",
  "        .section-head .label svg \x7b",
  "            filter: drop-shadow(0 0 10px var(--accent)) drop-shadow(0 0 20px var(--accent));",
  "        \x7d",
  "",
  "        .section-head .label .accent \x7b",
  "            color: var(--accent);",
  "            font-style: normal",
  "        \x7d",
  "",
  " /* Light cards and groups with White Glassmorphism & Glistening Shine */",
  " .group,.card,.banner\x7bbackground:linear-gradient(135deg,rgba(255,255,255,0.96),rgba(255,255,255,0.9))!important;backdrop-filter:blur(24px);-webkit-backdrop-filter:blur(24px);border:1.5px solid rgba(255,255,255,1);border-radius:1rem;padding:1.15rem 1.25rem;box-shadow:0 12px 40px 0 rgba(0,0,0,0.15),inset 0 0 15px rgba(255,255,255,0.8),inset 0 0 0 1px rgba(255,255,255,0.5);color:#000000!important;position:relative;overflow:hidden;\x7d",
  " .group::before,.card::before,.banner::before\x7bcontent:'';position:absolute;top:0;left:-150%;width:100%;height:100%;background:linear-gradient(90deg,transparent,rgba(255,255,255,0.8),transparent);transform:skewX(-20deg);animation:card-shine 3s forwards;pointer-events:none;\x7d",
  " @keyframes card-shine\x7b0%\x7bleft:-150%;\x7d30%\x7bleft:150%;\x7d100%\x7bleft:150%;\x7d\x7d",
  " .group+.group\x7bmargin-top:1rem;\x7d",
  "",
  "        .title \x7b",
  "            font-size: 1.15rem;",
  "            color: #000000;",
  "            margin-bottom: .5rem;",
  "        \x7d",
  "",
  "        /* Legacy CTA (kept for quick link outside buttons) */",
  "        .cta \x7b",
  "            display: inline-block;",
  "            margin-top: .75rem;",
  "            padding: .85rem 1.25rem;",
  "            border-radius: 999px;",
  "            color: #fff;",
  "            background: linear-gradient(90deg, #6366f1, #8b5cf6);",
  "            box-shadow: 0 12px 26px rgba(99, 102, 241, .28);",
  "            font-weight: 700",
  "        \x7d",
  "",
  "        .cta:hover \x7b",
  "            filter: brightness(1.05);",
  "        \x7d",
  "",
  "        /* Cards grid */",
  "        .grid \x7b",
  "            display: grid;",
  "            grid-template-columns: repeat(auto-fit, minmax(290px, 1fr));",
  "            gap: 1.25rem;",
  "        \x7d",
  "",
  "        .grid.features \x7b",
  "            grid-template-columns: repeat(2, minmax(0, 1fr));",
  "            column-gap: 1.5rem;",
  "            row-gap: 2rem;",
  "            grid-auto-flow: row;",
  "        \x7d",
  "",
  "        @media (max-width: 720px) \x7b",
  "            .grid.features \x7b",
  "                grid-template-columns: 1fr;",
  "                row-gap: 1.25rem;",
  "            \x7d",
  "",
  "            .features .card \x7b",
  "                height: auto;",
  "                padding: 1rem 1.15rem",
  "            \x7d",
  "        \x7d",
  "",
  "        .card h3,.banner .label \x7b",
  "            margin: .15rem 0 .6rem;",
  "            font-size: 1.06rem;",
  "            color: #000000!important;",
  "            font-weight: 700;",
  "        \x7d",
  "",
  "        .note \x7b",
  "            margin-top: .7rem;",
  "            font-size: .92rem;",
  "            color: var(--note-text);",
  "            border: 1px dashed var(--note-border);",
  "            background: var(--note-bg);",
  "            padding: .6rem .75rem;",
  "            border-radius: .5rem",
  "        \x7d",
  "",
  "        /* Heading icons */",
  "        .hicon \x7b",
  "            display: inline-flex;",
  "            align-items: center;",
  "            justify-content: center;",
  "            width: 22px;",
  "            height: 22px;",
  "            margin-right: .55rem;",
  "            vertical-align: middle",
  "        \x7d",
  "",
  "        .hicon.import \x7b",
  "            color: var(--accent-purple)",
  "        \x7d",
  "",
  "        .hicon.key \x7b",
  "            color: var(--accent-teal)",
  "        \x7d",
  "",
  "        .hicon.keyboard \x7b",
  "            color: var(--accent-amber)",
  "        \x7d",
  "",
  "        .hicon.check \x7b",
  "            color: #02b302",
  "        \x7d",
  "",
  "        .hicon svg \x7b",
  "            width: 22px;",
  "            height: 22px;",
  "            fill: currentColor",
  "        \x7d",
  "",
  "        /* Banner */",
  "        .banner \x7b",
  "            background: var(--card);",
  "            border: 1px solid var(--border);",
  "            border-radius: 1rem;",
  "            padding: 1rem 1.25rem;",
  "            color: var(--text);",
  "            text-align: left;",
  "            box-shadow: var(--shadow-lg)",
  "        \x7d",
  "",
  "        .banner .label \x7b",
  "            display: flex;",
  "            align-items: center;",
  "            font-weight: 700;",
  "        \x7d",
  "",
  "        /* Features cards */",
  "        .features .card \x7b",
  "            height: var(--feature-card-h);",
  "            /* Inherit glistening box-shadow from .card, do not override with shadow-md */",
  "            padding: .7rem 1rem",
  "        \x7d",
  "",
  "        .features .card h3 \x7b",
  "            margin: .05rem 0 .25rem;",
  "            line-height: 1.28",
  "        \x7d",
  "",
  "        .features .card p \x7b",
  "            line-height: 1.45",
  "        \x7d",
  "",
  "        .features .card p+p \x7b",
  "            margin-top: .25rem !important",
  "        \x7d",
  "",
  "        /* Icons for feature cards use accent color */",
  "        .features .card .hicon \x7b",
  "            color: var(--accent)",
  "        \x7d",
  "",
  "        .muted \x7b",
  "            color: #4b5563 !important;",
  "        \x7d",
  "",
  "        .examples \x7b",
  "            margin-top: .75rem",
  "        \x7d",
  "",
  "        .codebox \x7b",
  "            display: block;",
  "            margin-top: .5rem;",
  "            padding: .7rem .8rem;",
  "            border-radius: .6rem;",
  "            background: var(--chip-bg);",
  "            border: 1px solid var(--chip-border);",
  "            color: var(--chip-text);",
  "            font-family: ui-monospace, SFMono-Regular, Menlo, Monaco, Consolas, monospace;",
  "            font-size: .9rem",
  "        \x7d",
  "",
  "        /* Links row */",
  "        .links a \x7b",
  "            display: inline-flex;",
  "            align-items: center;",
  "            gap: .45rem;",
  "            margin: .25rem .35rem;",
  "            padding: .55rem .9rem;",
  "            background: var(--linkpill-bg);",
  "            border: 1px solid var(--border);",
  "            border-radius: .7rem;",
  "            color: var(--linkpill-text);",
  "            box-shadow: 0 12px 24px -20px rgba(0, 0, 0, .15)",
  "        \x7d",
  "",
  "        .links a:hover \x7b",
  "            background: var(--linkpill-bg);",
  "            filter: brightness(1.03)",
  "        \x7d",
  "",
  "        .links a .icon \x7b",
  "            display: inline-flex;",
  "            width: 18px;",
  "            height: 18px;",
  "            color: var(--social-icon);",
  "        \x7d",
  "",
  "        .links a .icon svg \x7b",
  "            width: 18px;",
  "            height: 18px;",
  "            fill: currentColor",
  "        \x7d",
  "",
  "        .titanium \x7b",
  "            background: linear-gradient(to bottom, #FFFFFF 10%, #A0A0A0 45%, #FFFFFF 50%, #A0A0A0 55%, #FFFFFF 90%);",
  "            background-size: 100% 200%;",
  "            background-clip: text;",
  "            -webkit-background-clip: text;",
  "            -webkit-text-fill-color: transparent;",
  "            color: #fff;",
  "            filter: drop-shadow(0 1px 0 rgba(0, 0, 0, 0.5));",
  "        \x7d",
  "",
  "        @keyframes rotate \x7b",
  "            from \x7b",
  "                transform: rotate(0deg);",
  "            \x7d",
  "",
  "            to \x7b",
  "                transform: rotate(360deg);",
  "            \x7d",
  "        \x7d",
  "",
  "        @keyframes shimmer \x7b",
  "            0% \x7b",
  "                background-position: 200% 0;",
  "            \x7d",
  "",
  "            100% \x7b",
  "                background-position: -200% 0;",
  "            \x7d",
  "        \x7d",
  "",
  "        @media(prefers-color-scheme:dark) \x7b",
  "            :root \x7b",
  "                --bg: #0b0f14;",
  "                --text: #e5e7eb;",
  "                --muted: #94a3b8;",
  "                --border: #1f2a3a;",
  "                --card: #101723;",
  "                --cta: #161A23;",
  "                --accent: #1266f1;",
  "                --link: #9aa1ff;",
  "                --chip-bg: #0b1220;",
  "                --chip-border: #1f2937;",
  "                --chip-text: #e5e7eb;",
  "                --kbd-bg: #0b1220;",
  "                --kbd-border: #1f2937;",
  "                --kbd-border2: #1b2432;",
  "                --kbd-text: #e5e7eb;",
  "                --note-bg: #0b1220;",
  "                --note-border: #273144;",
  "                --note-text: #cbd5e1;",
  "                --badge-bg: rgba(255, 255, 255, .08);",
  "                --badge-border: #2a3342;",
  "                --badge-text: #cbd5e1;",
  "                --linkpill-bg: #101723;",
  "                --linkpill-text: #e5e7eb;",
  "                --social-icon: #9ca3af;",
  "                --shadow-lg: 0 24px 40px -20px rgba(0, 0, 0, .6);",
  "                --shadow-md: 0 10px 30px rgba(0, 0, 0, 0.5);",
  "                --accent-purple: #a78bfa;",
  "                --accent-teal: #22d3ee;",
  "                --accent-amber: #f59e0b;",
  "            \x7d",
  "        \x7d",
  "    </style>"
]

/-- Lines 646 to 648 of nxtscape_first_run.h, inside the raw string literal of StartDataRequest. -/
def sourceHeadEnd : List String := [
  "    <base target=\"_blank\">",
  "</head>",
  ""
]

/-- Lines 649 to 936 of nxtscape_first_run.h, inside the raw string literal of StartDataRequest. -/
def sourceBody : List String := [
  "<body>",
  "    <section class=\"hero\">",
  "        <div class=\"badge-row\">",
  "            <span class=\"badge\"><svg version=\"1.1\" xmlns=\"http://www.w3.org/2000/svg\"",
  "                    xmlns:xlink=\"http://www.w3.org/1999/xlink\" viewBox=\"0 0 1024 1024\" width=\"42\" height=\"42\"",
  "                    style=\"enable-background:new 0 0 1024 1024;\" xml:space=\"preserve\">",
  "                    <style type=\"text/css\">",
  "                        .st0 \x7b",
  "                            fill: none;",
  "                        \x7d",
  "",
  "                        .st1 \x7b",
  "                            clip-path: url(#SVGID_3_);",
  "                            fill: none;",
  "                            stroke: #fff;",
  "                            stroke-width: 209;",
  "                            stroke-miterlimit: 10;",
  "                        \x7d",
  "",
  "                        .st2 \x7b",
  "                            clip-path: url(#SVGID_5_);",
  "                            fill: none;",
  "                            stroke: #fff;",
  "                            stroke-width: 209;",
  "                            stroke-miterlimit: 10;",
  "                        \x7d",
  "                    </style>",
  "                    <g>",
  "                        <g>",
  "                            <circle id=\"SVGID_1_\" class=\"st0\" cx=\"513.3\" cy=\"510.8\" r=\"454.9\" />",
  "                        </g>",
  "                        <g>",
  "                            <g>",
  "                                <defs>",
  "                                    <circle id=\"SVGID_2_\" cx=\"513.3\" cy=\"510.8\" r=\"454.9\" />",
  "                                </defs>",
  "                                <clipPath id=\"SVGID_3_\">",
  "                                    <use xlink:href=\"#SVGID_2_\" style=\"overflow:visible;\" />",
  "                                </clipPath>",
  "                                <circle class=\"st1\" cx=\"758.2\" cy=\"988.4\" r=\"411.5\" />",
  "                            </g>",
  "                        </g>",
  "                        <g>",
  "                            <g>",
  "                                <defs>",
  "                                    <circle id=\"SVGID_4_\" cx=\"513.3\" cy=\"510.8\" r=\"454.9\" />",
  "                                </defs>",
  "                                <clipPath id=\"SVGID_5_\">",
  "                                    <use xlink:href=\"#SVGID_4_\" style=\"overflow:visible;\" />",
  "                                </clipPath>",
  "                                <circle class=\"st2\" cx=\"262\" cy=\"81.4\" r=\"411.5\" />",
  "                            </g>",
  "                        </g>",
  "                    </g>",
  "                </svg><span class=\"titanium\">eGovernment OS</span></span>",
  "        </div>",
  "        <p class=\"subtitle\">See Everything. Own Everything. Leak Nothing.</p>",
  "        <h1>The Operating System for Modern Sovereign Governments</h1>",
  "        <p>Address your toughest challenges with AI designed for government: coordinate departments automatically,",
  "            process sensitive data securely, and eliminate repetitive tasks. eGovernmentOS delivers AI you can actually",
  "            use, from the President's office to the border post.</p>",
  "        <div class=\"actions\">",
  "        </div>",
  "    </section>",
  "",
  "    <section>",
  "        <div class=\"section-head\"><span class=\"label\">🚀 <span class=\"titanium\">Getting Started</span></span></div>",
  "        <div style=\"text-align:center;\">",
  "            <a class=\"btn btn-accent\" href=\"https://docs.deepintelgroup.com/onboarding\">Quick start guide</a>",
  "        </div>",
  "",
  "        <div class=\"grid\" style=\"margin-top:1rem;\">",
  "            <div class=\"card\">",
  "                <h3>",
  "                    <span class=\"hicon import\" aria-hidden=\"true\">",
  "                        <svg xmlns=\"http://www.w3.org/2000/svg\" viewBox=\"0 0 24 24\" width=\"24\" height=\"24\">",
  "                            <path",
  "                                d=\"M5 20h14v-2H5v2zm7-16c.55 0 1 .45 1 1v6.17l2.59-2.58 1.41 1.41L12 14.59 6.99 10l1.41-1.41L11 11.17V5c0-.55.45-1 1-1z\" />",
  "                        </svg>",
  "                    </span>",
  "                    Step 1: Import your data from Chrome",
  "                </h3>",
  "                <ol>",
  "                    <li>Navigate to <a href=\"chrome://settings/importData\"><code>chrome://settings/importData</code></a>",
  "                    </li>",
  "                    <li>Click \"Import\"</li>",
  "                    <li>Follow the prompts and choose \"Always allow\" when asked to import everything at once</li>",
  "                </ol>",
  "            </div>",
  "            <div class=\"card\">",
  "                <h3>",
  "                    <span class=\"hicon key\" aria-hidden=\"true\">",
  "                        <svg xmlns=\"http://www.w3.org/2000/svg\" height=\"24\" viewBox=\"0 -960 960 960\" width=\"24\">",
  "                            <path",
  "                                d=\"M420-680q0-33 23.5-56.5T500-760q33 0 56.5 23.5T580-680q0 33-23.5 56.5T500-600q-33 0-56.5-23.5T420-680ZM500 0 320-180l60-80-60-80 60-85v-47q-54-32-87-86.5T260-680q0-100 70-170t170-70q100 0 170 70t70 170q0 67-33 121.5T620-472v352L500 0ZM340-680q0 56 34 98.5t86 56.5v125l-41 58 61 82-55 71 75 75 40-40v-371q52-14 86-56.5t34-98.5q0-66-47-113t-113-47q-66 0-113 47t-47 113Z\" />",
  "                        </svg>",
  "                    </span>",
  "                    Step 2: BYOK (Bring Your Own Keys)",
  "                </h3>",
  "                <p class=\"muted\">You have full control over your AI models!</p>",
  "                <p class=\"muted\" style=\"margin-top:.35rem\">Navigate to <a",
  "                        href=\"chrome://settings/egovernmentos\"><code>chrome://settings/egovernmentos</code></a> to",
  "                    configure",
  "                    your own API keys for various providers.</p>",
  "                <div class=\"note\">Note: You can even run everything locally using Ollama!</div>",
  "            </div>",
  "        </div>",
  "",
  "        <div class=\"banner\" style=\"margin-top:1.1rem;\">",
  "            <div class=\"label\">",
  "                <span class=\"hicon check\" aria-hidden=\"true\">",
  "                    <svg xmlns=\"http://www.w3.org/2000/svg\" height=\"24px\" viewBox=\"0 -960 960 960\" width=\"24px\"",
  "                        fill=\"#02b302\">",
  "                        <path",
  "                            d=\"m381-240 424-424-57-56-368 367-169-170-57 57 227 226Zm0 113L42-466l169-170 170 170 366-367 172 168-538 538Z\" />",
  "                    </svg>",
  "                </span>",
  "                Step 3: All done!",
  "            </div>",
  "            <div class=\"muted\" style=\"margin-top:.4rem\">Your ready to use eGovernmentOS, have fun! This page can be",
  "                always accessed again at <a",
  "                    href=\"chrome://egovernmentos-first-run\"><code>chrome://egovernmentos-first-run</code></a></div>",
  "        </div>",
  "    </section>",
  "",
  "    <section>",
  "        <div class=\"section-head\"><span class=\"label\">✨ <span class=\"titanium\">Key Features</span></span></div>",
  "        <div class=\"grid features\" style=\"margin-top:1rem;\">",
  "            <div class=\"card\">",
  "                <h3>",
  "                    <span class=\"hicon feature-globe\" aria-hidden=\"true\">",
  "                        <svg xmlns=\"http://www.w3.org/2000/svg\" height=\"24px\" viewBox=\"0 -960 960 960\" width=\"24px\"",
  "                            fill=\"#1266f1\">",
  "                            <path",
  "                                d=\"M480-80q-82 0-155-31.5t-127.5-86Q143-252 111.5-325T80-480q0-83 31.5-155.5t86-127Q252-817 325-848.5T480-880q83 0 155.5 31.5t127 86q54.5 54.5 86 127T880-480q0 82-31.5 155t-86 127.5q-54.5 54.5-127 86T480-80Zm0-82q26-36 45-75t31-83H404q12 44 31 83t45 75Zm-104-16q-18-33-31.5-68.5T322-320H204q29 50 72.5 87t99.5 55Zm208 0q56-18 99.5-55t72.5-87H638q-9 38-22.5 73.5T584-178ZM170-400h136q-3-20-4.5-39.5T300-480q0-21 1.5-40.5T306-560H170q-5 20-7.5 39.5T160-480q0 21 2.5 40.5T170-400Zm216 0h188q3-20 4.5-39.5T580-480q0-21-1.5-40.5T574-560H386q-3 20-4.5 39.5T380-480q0 21 1.5 40.5T386-400Zm268 0h136q5-20 7.5-39.5T800-480q0-21-2.5-40.5T790-560H654q3 20 4.5 39.5T660-480q0 21-1.5 40.5T654-400Zm-16-240h118q-29-50-72.5-87T584-782q18 33 31.5 68.5T638-640Zm-234 0h152q-12-44-31-83t-45-75q-26 36-45 75t-31 83Zm-200 0h118q9-38 22.5-73.5T376-782q-56 18-99.5 55T204-640Z\" />",
  "                        </svg>",
  "                    </span>",
  "                    Natural-Language Specialists",
  "                </h3>",
  "                <p class=\"muted\">Tell eGovernmentOS what to do in plain English: it clicks, types, and navigates for",
  "                    you. No coding, no setup.</p>",
  "                <p class=\"muted\">Example: \"Copy these LinkedIn contacts to a Google Sheet.\"</p>",
  "            </div>",
  "            <div class=\"card\">",
  "                <h3>",
  "                    <span class=\"hicon feature-split\" aria-hidden=\"true\">",
  "                        <svg xmlns=\"http://www.w3.org/2000/svg\" height=\"24px\" viewBox=\"0 -960 960 960\" width=\"24px\"",
  "                            fill=\"#1266f1\">",
  "                            <path",
  "                                d=\"M600-160v-80h160v-480H600v-80h160q33 0 56.5 23.5T840-720v480q0 33-23.5 56.5T760-160H600ZM440-80v-80H200q-33 0-56.5-23.5T120-240v-480q0-33 23.5-56.5T200-800h240v-80h80v800h-80Zm320-640v480-480Z\" />",
  "                        </svg>",
  "                    </span>",
  "                    Split-View AI on Any Page",
  "                </h3>",
  "                <p class=\"muted\">Open ChatGPT, Claude, or Gemini alongside any website. Get help while you work:",
  "                    summarize articles, draft responses, or analyze data without switching tabs.</p>",
  "            </div>",
  "            <div class=\"card\">",
  "                <h3>",
  "                    <span class=\"hicon feature-private\" aria-hidden=\"true\">",
  "                        <svg xmlns=\"http://www.w3.org/2000/svg\" height=\"24px\" viewBox=\"0 -960 960 960\" width=\"24px\"",
  "                            fill=\"#1266f1\">",
  "                            <path",
  "                                d=\"M240-80q-33 0-56.5-23.5T160-160v-400q0-33 23.5-56.5T240-640h40v-80q0-83 58.5-141.5T480-920q83 0 141.5 58.5T680-720v80h40q33 0 56.5 23.5T800-560v400q0 33-23.5 56.5T720-80H240Zm0-80h480v-400H240v400Zm240-120q33 0 56.5-23.5T560-360q0-33-23.5-56.5T480-440q-33 0-56.5 23.5T400-360q0 33 23.5 56.5T480-280ZM360-640h240v-80q0-50-35-85t-85-35q-50 0-85 35t-35 85v80ZM240-160v-400 400Z\" />",
  "                        </svg>",
  "                    </span>",
  "                    Private by Default",
  "                </h3>",
  "                <p class=\"muted\">Run AI locally with Ollama or bring your own API keys. Your data never leaves your",
  "                    machine unless you choose.</p>",
  "            </div>",
  "            <div class=\"card\">",
  "                <h3>",
  "                    <span class=\"hicon feature-ea\" aria-hidden=\"true\">",
  "                        <svg xmlns=\"http://www.w3.org/2000/svg\" height=\"24px\" viewBox=\"0 -960 960 960\" width=\"24px\"",
  "                            fill=\"#1266f1\">",
  "                            <path",
  "                                d=\"M360-390q-21 0-35.5-14.5T310-440q0-21 14.5-35.5T360-490q21 0 35.5 14.5T410-440q0 21-14.5 35.5T360-390Zm240 0q-21 0-35.5-14.5T550-440q0-21 14.5-35.5T600-490q21 0 35.5 14.5T650-440q0 21-14.5 35.5T600-390ZM480-160q134 0 227-93t93-227q0-24-3-46.5T786-570q-21 5-42 7.5t-44 2.5q-91 0-172-39T390-708q-32 78-91.5 135.5T160-486v6q0 134 93 227t227 93Zm0 80q-83 0-156-31.5T197-197q-54 54-85.5-127T80-480q0-83 31.5-156T197-763q54-54 127-85.5T480-880q83 0 156 31.5T763-763q54 54 85.5 127T880-480q0 83-31.5 156T763-197q-54 127 85.5T480-80Zm-54-715q42 70 114 112.5T700-640q14 0 27-1.5t27-3.5q-42-70-114-112.5T480-800q-14 0-27 1.5t-27 3.5ZM177-581q51-29 89-75t57-103q-51 29-89 75t-57 103Zm249-214Zm-103 36Z\" />",
  "                        </svg>",
  "                    </span>",
  "                    Your Executive Assistant",
  "                </h3>",
  "                <p class=\"muted\">Check email, schedule meetings, draft responses: all from the sidebar. Connect Gmail,",
  "                    Calendar, Notion, and more with one-click MCP integration.</p>",
  "            </div>",
  "        </div>",
  "    </section>",
  "",
  "",
  "",
  "    <section>",
  "        <div class=\"section-head\"><span class=\"label\">🤝 <span class=\"titanium\">Join our community</span></span></div>",
  "        <div class=\"links\" style=\"text-align:center; margin-top:1rem;\">",
  "            <a href=\"https://discord.gg/25Ur5Ss7\" target=\"_blank\">",
  "                <span class=\"icon\">",
  "                    <svg viewBox=\"0 0 24 24\" xmlns=\"http://www.w3.org/2000/svg\">",
  "                        <path",
  "                            d=\"M20.317 4.37a19.791 19.791 0 0 0-4.885-1.515.074.074 0 0 0-.079.037c-.21.375-.444.864-.608 1.25a18.27 18.27 0 0 0-5.487 0 12.64 12.64 0 0 0-.617-1.25.077.077 0 0 0-.079-.037A19.736 19.736 0 0 0 3.677 4.37a.07.07 0 0 0-.032.027C.533 9.046-.32 13.58.099 18.057a.082.082 0 0 0 .031.057 19.9 19.9 0 0 0 5.993 3.03.078.078 0 0 0 .084-.028 14.09 14.09 0 0 0 1.226-1.994.076.076 0 0 0-.041-.106 13.107 13.107 0 0 1-1.872-.892.077.077 0 0 1-.008-.128 10.2 10.2 0 0 0 .372-.292.074.074 0 0 1 .077-.01c3.928 1.793 8.18 1.793 12.062 0a.074.074 0 0 1 .078.01c.12.098.246.198.373.292a.077.077 0 0 1-.006.127 12.299 12.299 0 0 1-1.873.892.077.077 0 0 0-.041.107c.36.698.772 1.362 1.225 1.993a.076.076 0 0 0 .084.028 19.839 19.839 0 0 0 6.002-3.03.077.077 0 0 0 .032-.054c.5-5.177-.838-9.674-3.549-13.66a.061.061 0 0 0-.031-.03zM8.02 15.33c-1.183 0-2.157-1.085-2.157-2.419 0-1.333.956-2.419 2.157-2.419 1.21 0 2.176 1.096 2.157 2.42 0 1.333-.956 2.418-2.157 2.418zm7.975 0c-1.183 0-2.157-1.085-2.157-2.419 0-1.333.955-2.419 2.157-2.419 1.21 0 2.176 1.096 2.157 2.42 0 1.333-.946 2.418-2.157 2.418z\">",
  "                        </path>",
  "                    </svg>",
  "                </span>",
  "                Discord",
  "            </a>",
  "            <a href=\"https://join.slack.com/t/egovermentos/shared_invite/zt-3m4b9vojq-e3fLMujKjn7EU1firgS5nw\" target=\"_blank\">",
  "                <span class=\"icon\">",
  "                    <svg xmlns=\"http://www.w3.org/2000/svg\" aria-label=\"Slack\" role=\"img\" viewBox=\"0 0 512 512\" stroke-width=\"78\" stroke-linecap=\"round\">",
  "                        <rect width=\"512\" height=\"512\" rx=\"115\" fill=\"#fff\"/>",
  "                        <path stroke=\"#36c5f0\" d=\"m110 207h97m0-97h.1v-.1\"/>",
  "                        <path stroke=\"#2eb67d\" d=\"m305 110v97m97 0v.1h.1\"/>",
  "                        <path stroke=\"#ecb22e\" d=\"m402 305h-97m0 97h-.1v.1\"/>",
  "                        <path stroke=\"#e01e5a\" d=\"M110 305h.1v.1m97 0v97\"/>",
  "                    </svg>",
  "                </span>",
  "                Join Slack",
  "            </a>",
  "            <a href=\"https://x.com/eGovernmentOS\" target=\"_blank\">",
  "                <span class=\"icon\">",
  "                    <svg viewBox=\"0 0 24 24\" xmlns=\"http://www.w3.org/2000/svg\">",
  "                        <path",
  "                            d=\"M18.901 1.153h3.68l-8.04 9.19L24 22.846h-7.406l-5.8-7.584-6.638 7.584H.474l8.6-9.83L0 1.154h7.594l5.243 6.932ZM17.61 20.644h2.039L6.486 3.24H4.298Z\">",
  "                        </path>",
  "                    </svg>",
  "                </span>",
  "                Twitter",
  "            </a>",
  "        </div>",
  "        <p style=\"text-align:center; margin-top:1.5rem; color:var(--muted); font-size:0.95rem;\">",
  "            Have questions or want to contribute? We’d love to hear from you.",
  "        </p>",
  "    </section>",
  "",
  "    <section>",
  "        <div class=\"section-head\"><span class=\"label\"><svg version=\"1.1\" xmlns=\"http://www.w3.org/2000/svg\"",
  "                    xmlns:xlink=\"http://www.w3.org/1999/xlink\" viewBox=\"0 0 1024 1024\" width=\"32\" height=\"32\"",
  "                    style=\"enable-background:new 0 0 1024 1024;\" xml:space=\"preserve\">",
  "                    <style type=\"text/css\">",
  "                        .st0 \x7b",
  "                            fill: none;",
  "                        \x7d",
  "",
  "                        .st1 \x7b",
  "                            clip-path: url(#SVGID_3_);",
  "                            fill: none;",
  "                            stroke: #fff;",
  "                            stroke-width: 209;",
  "                            stroke-miterlimit: 10;",
  "                        \x7d",
  "",
  "                        .st2 \x7b",
  "                            clip-path: url(#SVGID_5_);",
  "                            fill: none;",
  "                            stroke: #fff;",
  "                            stroke-width: 209;",
  "                            stroke-miterlimit: 10;",
  "                        \x7d",
  "                    </style>",
  "                    <g>",
  "                        <g>",
  "                            <circle id=\"SVGID_1_\" class=\"st0\" cx=\"513.3\" cy=\"510.8\" r=\"454.9\" />",
  "                        </g>",
  "                        <g>",
  "                            <g>",
  "                                <defs>",
  "                                    <circle id=\"SVGID_2_\" cx=\"513.3\" cy=\"510.8\" r=\"454.9\" />",
  "                                </defs>",
  "                                <clipPath id=\"SVGID_3_\">",
  "                                    <use xlink:href=\"#SVGID_2_\" style=\"overflow:visible;\" />",
  "                                </clipPath>",
  "                                <circle class=\"st1\" cx=\"758.2\" cy=\"988.4\" r=\"411.5\" />",
  "                            </g>",
  "                        </g>",
  "                        <g>",
  "                            <g>",
  "                                <defs>",
  "                                    <circle id=\"SVGID_4_\" cx=\"513.3\" cy=\"510.8\" r=\"454.9\" />",
  "                                </defs>",
  "                                <clipPath id=\"SVGID_5_\">",
  "                                    <use xlink:href=\"#SVGID_4_\" style=\"overflow:visible;\" />",
  "                                </clipPath>",
  "                                <circle class=\"st2\" cx=\"262\" cy=\"81.4\" r=\"411.5\" />",
  "                            </g>",
  "                        </g>",
  "                    </g>",
  "                </svg><span class=\"titanium\">eGovernmentOS</span></span></div>",
  "    </section>",
  "",
  "    <canvas id=\"titanium-bg\"></canvas>",
  ""
]

/-- Lines 937 to 1029 of nxtscape_first_run.h, inside the raw string literal of StartDataRequest. -/
def sourceScript : List String := [
  "    <script>",
  "        const canvas = document.getElementById('titanium-bg');",
  "        const ctx = canvas.getContext('2d');",
  "        let width, height;",
  "        let particles = [];",
  "",
  "        // Titanium colors palette (metallic greys/silvers)",
  "        const colors = ['#E5E7EB', '#D1D5DB', '#9CA3AF', '#4B5563'];",
  "",
  "        function resize() \x7b",
  "            width = canvas.width = window.innerWidth;",
  "            height = canvas.height = window.innerHeight;",
  "        \x7d",
  "",
  "        class Particle \x7b",
  "            constructor() \x7b",
  "                this.x = Math.random() * width;",
  "                this.y = Math.random() * height;",
  "                this.vx = (Math.random() - 0.5) * 0.5;",
  "                this.vy = (Math.random() - 0.5) * 0.5;",
  "                this.size = Math.random() * 2 + 0.5;",
  "                this.color = colors[Math.floor(Math.random() * colors.length)];",
  "                this.opacity = Math.random() * 0.5 + 0.1;",
  "                this.fadeSpeed = 0.005;",
  "                this.fadingIn = true;",
  "            \x7d",
  "",
  "            update() \x7b",
  "                this.x += this.vx;",
  "                this.y += this.vy;",
  "",
  "                // Bounce off edges",
  "                if (this.x < 0 || this.x > width) this.vx *= -1;",
  "                if (this.y < 0 || this.y > height) this.vy *= -1;",
  "",
  "                // Shimmer effect (opacity oscillation)",
  "                if (this.fadingIn) \x7b",
  "                    this.opacity += this.fadeSpeed;",
  "                    if (this.opacity >= 0.8) this.fadingIn = false;",
  "                \x7d else \x7b",
  "                    this.opacity -= this.fadeSpeed;",
  "                    if (this.opacity <= 0.1) this.fadingIn = true;",
  "                \x7d",
  "            \x7d",
  "",
  "            draw() \x7b",
  "                ctx.beginPath();",
  "                ctx.arc(this.x, this.y, this.size, 0, Math.PI * 2);",
  "                ctx.fillStyle = this.color;",
  "                ctx.globalAlpha = this.opacity;",
  "                ctx.fill();",
  "                ctx.globalAlpha = 1;",
  "",
  "                // Shiny glow core",
  "                ctx.shadowBlur = 10;",
  "                ctx.shadowColor = this.color;",
  "                ctx.shadowBlur = 0;",
  "            \x7d",
  "        \x7d",
  "",
  "        function init() \x7b",
  "            resize();",
  "            particles = [];",
  "            for (let i = 0; i < 100; i++) \x7b",
  "                particles.push(new Particle());",
  "            \x7d",
  "        \x7d",
  "",
  "        function animate() \x7b",
  "            ctx.clearRect(0, 0, width, height);",
  "            ",
  "            // Draw gradient background",
  "            const gradient = ctx.createLinearGradient(0, 0, 0, height);",
  "            gradient.addColorStop(0, '#0f172a'); // Dark slate/titanium base",
  "            gradient.addColorStop(1, '#000000');",
  "            ctx.fillStyle = gradient;",
  "            ctx.fillRect(0, 0, width, height);",
  "",
  "            particles.forEach(p => \x7b",
  "                p.update();",
  "                p.draw();",
  "            \x7d);",
  "            requestAnimationFrame(animate);",
  "        \x7d",
  "",
  "        window.addEventListener('resize', () => \x7b",
  "            resize();",
  "            init();",
  "        \x7d);",
  "",
  "        init();",
  "        animate();",
  "    </script>"
]

/-- Lines 1030 to 1033 of nxtscape_first_run.h, inside the raw string literal of StartDataRequest. -/
def sourceEnd : List String := [
  "</body>",
  "",
  "</html>",
  "  "
]

/-- The lines of the raw string literal `R"( ... )"` of `StartDataRequest`, in order:
the first is what follows `R"(` on line 54 (nothing), the last is what precedes `)"` on
line 1033 (two blanks). -/
def sourceLines : List String :=
  sourcePreamble ++ sourceStyle ++ sourceHeadEnd ++ sourceBody ++ sourceScript ++ sourceEnd

/-! ## class UFRDataSource -/

/-- The class `UFRDataSource : public content::URLDataSource`. It declares no data member. -/
structure UFRDataSource where
  deriving DecidableEq, Repr

namespace UFRDataSource

/-- `std::string UFRDataSource::GetSource()`. -/
def GetSource (_self : UFRDataSource) : String := "egovernmentos-first-run"

/-- `std::string UFRDataSource::GetMimeType(const GURL &url)`. -/
def GetMimeType (_self : UFRDataSource) (_url : GURL) : String := "text/html"

/-- `std::string UFRDataSource::GetContentSecurityPolicy(CSPDirectiveName directive)`. -/
def GetContentSecurityPolicy (_self : UFRDataSource) (directive : CSPDirectiveName) : String :=
  if directive = CSPDirectiveName.ScriptSrc then
    "'unsafe-inline'"
  else if directive = CSPDirectiveName.StyleSrc then
    "'unsafe-inline' https://fonts.googleapis.com"
  else if directive = CSPDirectiveName.FontSrc then
    "https://fonts.gstatic.com"
  else if directive = CSPDirectiveName.ImgSrc then
    "'self' data:"
  else
    ""

/-- The local `std::string source` of `StartDataRequest`: the raw string literal, whose
lines are joined by the line feeds that separate them in the literal. -/
def source : String := "\n".intercalate sourceLines

/-- `void UFRDataSource::StartDataRequest(url, wc_getter, callback)`: builds `source` and
runs the callback on a fresh `RefCountedString` that owns it. -/
def StartDataRequest {σ : Type} (_self : UFRDataSource) (_url : GURL)
    (_wc_getter : WebContentsGetter) (callback : GotDataCallback σ) : σ → σ :=
  callback.Run (MakeRefCounted source)

end UFRDataSource

/-! ## Calls made on a data source -/

/-- One call of a method of the data source, with its arguments. The callback of
`StartDataRequest` acts on the state `σ` of the caller. -/
inductive Call (σ : Type) where
  | GetSource
  | GetMimeType (url : GURL)
  | GetContentSecurityPolicy (directive : CSPDirectiveName)
  | StartDataRequest (url : GURL) (wc_getter : WebContentsGetter) (callback : GotDataCallback σ)

/-- Performs one call on the data source `self` while the caller is in state `w`: the data
source after the call (no method assigns a member), the string returned (`none` for the
`void` method) and the state of the caller after the call. -/
def UFRDataSource.call {σ : Type} (self : UFRDataSource) (c : Call σ) (w : σ) :
    UFRDataSource × Option String × σ :=
  match c with
  | Call.GetSource => (self, some self.GetSource, w)
  | Call.GetMimeType url => (self, some (self.GetMimeType url), w)
  | Call.GetContentSecurityPolicy directive =>
      (self, some (self.GetContentSecurityPolicy directive), w)
  | Call.StartDataRequest url wc_getter callback =>
      (self, none, self.StartDataRequest url wc_getter callback w)

/-- Performs the calls of `cs` one after the other, first to last. -/
def UFRDataSource.callAll {σ : Type} (self : UFRDataSource) :
    List (Call σ) → σ → UFRDataSource × σ
  | [], w => (self, w)
  | c :: cs, w => UFRDataSource.callAll (self.call c w).1 cs (self.call c w).2.2

/-- A callback that appends the buffer it is run with to a log of its runs. -/
def recordRun : GotDataCallback (List (Option RefCountedString)) where
  Run := fun buffer log => log ++ [buffer]

/-! ## NxtscapeFirstRunUIConfig and NxtscapeFirstRun -/

/-- The two strings a `content::DefaultWebUIConfig` is constructed from. -/
structure WebUIConfig where
  scheme : String
  host : String
  deriving DecidableEq, Repr

/-- `NxtscapeFirstRunUIConfig() : DefaultWebUIConfig("chrome", "egovernmentos-first-run")`. -/
def NxtscapeFirstRunUIConfig : WebUIConfig where
  scheme := "chrome"
  host := "egovernmentos-first-run"

/-- The constructor of `NxtscapeFirstRun`:
`content::URLDataSource::Add(Profile::FromWebUI(web_ui), std::make_unique<UFRDataSource>())`.
`Add` belongs to the host browser and is a parameter; `profile` is the profile of the WebUI. -/
def NxtscapeFirstRun {P : Type} (Add : P → UFRDataSource → P) (profile : P) : P :=
  Add profile UFRDataSource.mk

/-- The data sources of a profile as the host browser keeps them: by the name `GetSource()`
gives, newest first. -/
structure Profile where
  data_sources : List (String × UFRDataSource)

/-- The host's `URLDataSource::Add` on `Profile`: the source is filed under its own name. -/
def Profile.Add (profile : Profile) (source : UFRDataSource) : Profile where
  data_sources := (source.GetSource, source) :: profile.data_sources

/-- The data source that answers requests for `host` in this profile, if any. -/
def Profile.sourceFor (profile : Profile) (host : String) : Option UFRDataSource :=
  profile.data_sources.lookup host

end FirstRun

/-! ## The patch to chrome_browser_main_extra_parts_profiles.cc -/

namespace ProfilesPatch

end ProfilesPatch

/-! ## Reading the served document -/

namespace Page

/-- The characters after the first line of a text given by its lines: each further line,
preceded by a line feed. -/
def joinTail : List String → List Char
  | [] => []
  | l :: ls => '\n' :: (l.data ++ joinTail ls)

/-- The characters of a text given by its lines, the lines separated by line feeds. -/
def joinLines : List String → List Char
  | [] => []
  | l :: ls => l.data ++ joinTail ls

/-- Whether `text` begins with the characters of `pat`. -/
def startsWith : List Char → List Char → Bool
  | [], _ => true
  | _ :: _, [] => false
  | p :: ps, c :: cs => if c = p then startsWith ps cs else false

/-- White space of HTML: blank, line feed, tab, form feed, carriage return. -/
def isSpace (c : Char) : Bool :=
  if c = ' ' then true else if c = '\n' then true else if c = '\t' then true
  else if c = '\x0c' then true else if c = '\r' then true else false

/-- The text without its leading white space. -/
def dropSpace : List Char → List Char
  | [] => []
  | c :: cs => if isSpace c = true then dropSpace cs else c :: cs

/-- The text before the first `stop`, all of it if there is none. -/
def takeUntil (stop : Char) : List Char → List Char
  | [] => []
  | c :: cs => if c = stop then [] else c :: takeUntil stop cs

/-- The text after the first `stop`, nothing if there is none. -/
def dropThrough (stop : Char) : List Char → List Char
  | [] => []
  | c :: cs => if c = stop then cs else dropThrough stop cs

/-- The text before the first white space, all of it if there is none. -/
def takeWord : List Char → List Char
  | [] => []
  | c :: cs => if isSpace c = true then [] else c :: takeWord cs

/-- The text before the first occurrence of `pat`, all of it if there is none. -/
def takeUntilText (pat : List Char) : List Char → List Char
  | [] => []
  | c :: cs => if startsWith pat (c :: cs) = true then [] else c :: takeUntilText pat cs

/-- For each place where the text reads `p` and then `ps`: the text that follows there. -/
def afterEachFrom (p : Char) (ps : List Char) : List Char → List (List Char)
  | [] => []
  | c :: cs =>
    if c = p then
      if startsWith ps cs = true then cs.drop ps.length :: afterEachFrom p ps cs
      else afterEachFrom p ps cs
    else afterEachFrom p ps cs

/-- For each occurrence of `pat` in the text, first to last: the text that follows it. -/
def afterEach (pat : String) (text : List Char) : List (List Char) :=
  match pat.data with
  | [] => []
  | p :: ps => afterEachFrom p ps text

/-- The text cut at every `sep`. -/
def splitAt (sep : Char) : List Char → List (List Char)
  | [] => [[]]
  | c :: cs =>
    if c = sep then [] :: splitAt sep cs
    else
      match splitAt sep cs with
      | w :: ws => (c :: w) :: ws
      | [] => [[c]]

/-- The text with the letters `A` to `Z` replaced by `a` to `z`. -/
def lower (text : List Char) : List Char := text.map Char.toLower

/-! ### Tags -/

/-- For every `<` of the document, first to last, the text between it and the next `>`. This
lists every tag of the document (and whatever else follows a `<`, in a script or a style
sheet). -/
def tags : List Char → List (List Char)
  | [] => []
  | c :: cs => if c = '<' then takeUntil '>' cs :: tags cs else tags cs

/-- The name of a tag, in lower case: `script` for `<script src=...>`, `/head` for
`</head>`. -/
def tagName (tag : List Char) : List Char := lower (takeWord tag)

/-- The values of the attribute `name` written `name="value"` after white space, first to
last. -/
def attributeValues (name : String) : List Char → List (List Char)
  | [] => []
  | c :: cs =>
    if isSpace c = true then
      if startsWith (name.data ++ ['=', '"']) cs = true then
        takeUntil '"' (cs.drop (name.length + 2)) :: attributeValues name cs
      else attributeValues name cs
    else attributeValues name cs

/-- Whether a tag carries the attribute `name`, with or without a value. -/
def hasAttribute (name : String) (tag : List Char) : Bool :=
  ((splitAt ' ' (tag.map fun c => if isSpace c = true then ' ' else c)).drop 1).any fun w =>
    lower (takeUntil '=' w) = name.data

/-- The text with everything from a `<` to the next `>` left out; `inTag` tells whether the
text starts inside a tag. -/
def stripTags : Bool → List Char → List Char
  | _, [] => []
  | true, c :: cs => if c = '>' then stripTags false cs else stripTags true cs
  | false, c :: cs => if c = '<' then stripTags true cs else c :: stripTags false cs

/-! ### Style sheets, scripts, links and identifiers of the document -/

/-- The URLs the document imports with `@import url(...)`, first to last. -/
def importUrls (doc : List Char) : List (List Char) :=
  (afterEach "@import url(" doc).map (takeUntil ')')

/-- The scheme of a URL: what precedes the first colon. -/
def urlScheme (url : List Char) : List Char := takeUntil ':' url

/-- The host of a URL `scheme://host/path`, or `none` when the text has no `://`. -/
def urlHost (url : List Char) : Option (List Char) :=
  match afterEach "://" url with
  | [] => none
  | r :: _ => some (takeUntil '/' r)

/-- The source expressions of a policy string: its parts between blanks. -/
def sourceExpressions (policy : String) : List (List Char) :=
  (splitAt ' ' policy.data).filter fun e => !e.isEmpty

/-- Whether the source expression `expr`, of the form `scheme://host`, names the scheme and
the host of `url`. A keyword such as `'unsafe-inline'` names no host. -/
def matchesSource (expr url : List Char) : Bool :=
  match urlHost expr, urlHost url with
  | some he, some hu => decide (lower (urlScheme expr) = lower (urlScheme url)) &&
      decide (lower he = lower hu)
  | _, _ => false

/-- The opening tags of the `script` elements of the document. -/
def scriptTags (doc : List Char) : List (List Char) :=
  (tags doc).filter fun t => tagName t = "script".data

/-- The tags `<head>`, `</head>`, `<body>` and `</body>` of the document, by name, in the
order in which they occur. -/
def headBodyTags (doc : List Char) : List (List Char) :=
  ((tags doc).map tagName).filter fun n =>
    n = "head".data ∨ n = "/head".data ∨ n = "body".data ∨ n = "/body".data

/-- Whether the text, its trailing white space removed, ends with `pat`. -/
def endsWithTrimmed (pat : String) (doc : List Char) : Bool :=
  startsWith pat.data.reverse (dropSpace doc.reverse)

/-- Reads a link `<a href="...">...</a>` at the start of `text`, after white space: the value
of `href` and the text shown, tags left out. `none` if the text does not start with an `a`
element. -/
def readLink (text : List Char) : Option (List Char × List Char) :=
  match dropSpace text with
  | '<' :: rest =>
    if tagName (takeUntil '>' rest) = "a".data then
      match attributeValues "href" (takeUntil '>' rest) with
      | href :: _ => some (href, stripTags false (takeUntilText "</a>".data (dropThrough '>' rest)))
      | [] => none
    else none
  | _ => none

/-- The links that follow the words `always accessed again at` in the document. -/
def accessLinks (doc : List Char) : List (Option (List Char × List Char)) :=
  (afterEach "always accessed again at" doc).map readLink

/-- The values of the `id` attributes of the document, first to last. -/
def idValues (doc : List Char) : List (List Char) := attributeValues "id" doc

/-- The identifiers the document refers to as `url(#ID)`, first to last. -/
def urlReferences (doc : List Char) : List (List Char) :=
  (afterEach "url(#" doc).map (takeUntil ')')

/-- The identifiers the document refers to as `xlink:href="#ID"`, first to last. -/
def xlinkReferences (doc : List Char) : List (List Char) :=
  (afterEach "xlink:href=\"#" doc).map (takeUntil '"')

/-- The number of elements of the document whose `id` is `name`. -/
def elementsWithId (doc : List Char) (name : List Char) : Nat := (idValues doc).count name

end Page

/-! ## The script of the page: class Particle -/

namespace PageScript

/-- `const colors = ['#E5E7EB', '#D1D5DB', '#9CA3AF', '#4B5563']`. -/
def colors : List String := ["#E5E7EB", "#D1D5DB", "#9CA3AF", "#4B5563"]

/-- The fields of a `Particle`, numbers read as exact rationals; `color` is `none` for
`undefined`. -/
structure Particle where
  x : ℚ
  y : ℚ
  vx : ℚ
  vy : ℚ
  size : ℚ
  color : Option String
  opacity : ℚ
  fadeSpeed : ℚ
  fadingIn : Bool
  deriving Repr

/-- The `constructor()` of `Particle`, for the canvas size `width`, `height`; `r₁` to `r₇` are
the values the seven calls of `Math.random()` return, in the order of the calls. -/
def Particle.new (width height : ℚ) (r₁ r₂ r₃ r₄ r₅ r₆ r₇ : ℚ) : Particle where
  x := r₁ * width
  y := r₂ * height
  vx := (r₃ - 0.5) * 0.5
  vy := (r₄ - 0.5) * 0.5
  size := r₅ * 2 + 0.5
  color := colors.get? (Int.toNat ⌊r₆ * colors.length⌋)
  opacity := r₇ * 0.5 + 0.1
  fadeSpeed := 0.005
  fadingIn := true

/-- The method `update()` of `Particle`, for the canvas size `width`, `height`. -/
def Particle.update (width height : ℚ) (p : Particle) : Particle :=
  let x := p.x + p.vx
  let y := p.y + p.vy
  let vx := if x < 0 ∨ x > width then p.vx * -1 else p.vx
  let vy := if y < 0 ∨ y > height then p.vy * -1 else p.vy
  if p.fadingIn = true then
    let opacity := p.opacity + p.fadeSpeed
    { p with
      x := x, y := y, vx := vx, vy := vy, opacity := opacity,
      fadingIn := if opacity ≥ 0.8 then false else p.fadingIn }
  else
    let opacity := p.opacity - p.fadeSpeed
    { p with
      x := x, y := y, vx := vx, vy := vy, opacity := opacity,
      fadingIn := if opacity ≤ 0.1 then true else p.fadingIn }

/-- The particle after `n` calls of `update()`. -/
def Particle.updates (width height : ℚ) : Nat → Particle → Particle
  | 0, p => p
  | n + 1, p => Particle.update width height (Particle.updates width height n p)

/-- What holds of the opacity of a particle between two calls of `update()`. -/
def OpacityInv (p : Particle) : Prop :=
  p.fadeSpeed = 0.005 ∧
  (p.fadingIn = true → 0.095 < p.opacity ∧ p.opacity < 0.8) ∧
  (p.fadingIn = false → 0.1 < p.opacity ∧ p.opacity < 0.805)

/-- What holds on one axis between two calls of `update()`: the speed is `a`, and the
position is on the canvas, or it left the canvas with the last step and the velocity has
been turned round. -/
def AxisInv (limit pos vel a : ℚ) : Prop :=
  |vel| = a ∧
  ((0 ≤ pos ∧ pos ≤ limit) ∨
    (limit < pos ∧ vel < 0 ∧ 0 ≤ pos + vel ∧ pos + vel ≤ limit) ∨
    (pos < 0 ∧ 0 < vel ∧ 0 ≤ pos + vel ∧ pos + vel ≤ limit))

/-- A particle at the right and lower edge of a canvas of 10 by 10 that moves out of it, by 3
to the right and by 4 downwards, at each step. -/
def cornerParticle : Particle where
  x := 10
  y := 10
  vx := 3
  vy := 4
  size := 1
  color := some "#E5E7EB"
  opacity := 0.35
  fadeSpeed := 0.005
  fadingIn := true

end PageScript

/-! ## Properties of the data source -/

namespace FirstRun

/-- A string that is not empty takes at least one byte. -/
theorem utf8ByteSize_pos_of_ne_empty (s : String) (h : s ≠ "") : 0 < s.utf8ByteSize := by
  obtain ⟨data⟩ := s
  cases data with
  | nil => exact absurd rfl h
  | cons c cs =>
    have hc := Char.utf8Size_pos c
    simp only [String.utf8ByteSize, String.utf8ByteSize.go]
    omega

/-- Joining keeps what has been joined so far at the front of the result. -/
theorem intercalate_go_prefix (sep : String) (l : List String) (acc : String) :
    acc.data <+: (String.intercalate.go acc sep l).data := by
  induction l generalizing acc with
  | nil => exact List.prefix_refl _
  | cons a as ih =>
    have h := ih (acc ++ sep ++ a)
    have h0 : acc.data <+: (acc ++ sep ++ a).data := by
      simp only [String.data_append, List.append_assoc]
      exact List.prefix_append _ _
    exact h0.trans h

/-- The first two lines of the raw string literal. -/
theorem sourceLines_head :
    ∃ rest, sourceLines = "" :: "<!DOCTYPE html>" :: rest := ⟨_, rfl⟩

/-- The served document begins with a line feed and the document type declaration. -/
theorem source_prefix : "\n<!DOCTYPE html>".data <+: UFRDataSource.source.data := by
  obtain ⟨rest, h⟩ := sourceLines_head
  unfold UFRDataSource.source
  rw [h]
  exact intercalate_go_prefix "\n" rest ("" ++ "\n" ++ "<!DOCTYPE html>")

/-- The served document is not the empty string. -/
theorem source_ne_empty : UFRDataSource.source ≠ "" := by
  intro h
  have hp := source_prefix
  rw [h] at hp
  have hl := hp.length_le
  simp at hl

/-- No call changes the data source: after any calls it is the one it was. -/
theorem callAll_fst {σ : Type} (self : UFRDataSource) (cs : List (Call σ)) (w : σ) :
    (self.callAll cs w).1 = self := rfl

/-- C1: for every directive `d`, `GetContentSecurityPolicy(d)` is a non-empty string if and
only if `d` is one of `ScriptSrc`, `StyleSrc`, `FontSrc`, `ImgSrc`; for every other directive
it is the empty string. -/
theorem csp_nonempty_iff_overridden (self : UFRDataSource) (d : CSPDirectiveName) :
    (self.GetContentSecurityPolicy d ≠ "" ↔
      (d = CSPDirectiveName.ScriptSrc ∨ d = CSPDirectiveName.StyleSrc ∨
        d = CSPDirectiveName.FontSrc ∨ d = CSPDirectiveName.ImgSrc)) ∧
    (self.GetContentSecurityPolicy d = "" ↔
      ¬ (d = CSPDirectiveName.ScriptSrc ∨ d = CSPDirectiveName.StyleSrc ∨
        d = CSPDirectiveName.FontSrc ∨ d = CSPDirectiveName.ImgSrc)) := by
  cases d <;> simp [UFRDataSource.GetContentSecurityPolicy]

/-- C2: `GetContentSecurityPolicy(ScriptSrc)` is exactly the string `'unsafe-inline'`, single
quotes included: fifteen characters, the first and the last a single quote, none of them
white space. -/
theorem csp_script_src_exact (self : UFRDataSource) :
    self.GetContentSecurityPolicy CSPDirectiveName.ScriptSrc = "'unsafe-inline'" ∧
    (self.GetContentSecurityPolicy CSPDirectiveName.ScriptSrc).data =
      ['\'', 'u', 'n', 's', 'a', 'f', 'e', '-', 'i', 'n', 'l', 'i', 'n', 'e', '\''] ∧
    (self.GetContentSecurityPolicy CSPDirectiveName.ScriptSrc).length = 15 ∧
    (self.GetContentSecurityPolicy CSPDirectiveName.ScriptSrc).data.all
      (fun c => !c.isWhitespace) = true := by
  exact ⟨rfl, rfl, rfl, rfl⟩

/-- C3: for every URL, whatever its scheme, host, path and query, `GetMimeType(url)` is
exactly `text/html`. -/
theorem mime_type_always_html (self : UFRDataSource) (url : GURL) :
    self.GetMimeType url = "text/html" := rfl

/-- C4: for every request, `StartDataRequest` runs the supplied callback exactly once, with a
buffer that is not null and not empty: whatever the callback and the state of its owner, the
state after the request is that of one run of the callback on that buffer, and a callback that
logs its runs has logged exactly that one. -/
theorem start_data_request_runs_callback_once (self : UFRDataSource) (url : GURL)
    (wc_getter : WebContentsGetter) :
    ∃ buffer : RefCountedString,
      buffer.data ≠ "" ∧ 0 < buffer.size ∧
      (∀ (σ : Type) (callback : GotDataCallback σ) (w : σ),
        self.StartDataRequest url wc_getter callback w = callback.Run (some buffer) w) ∧
      self.StartDataRequest url wc_getter recordRun [] = [some buffer] := by
  refine ⟨⟨UFRDataSource.source⟩, ?_, ?_, ?_, ?_⟩
  · dsimp only
    exact source_ne_empty
  · dsimp only [RefCountedString.size]
    exact utf8ByteSize_pos_of_ne_empty UFRDataSource.source source_ne_empty
  · intro σ callback w
    rfl
  · rfl

/-- C5: the buffer handed to the callback does not depend on the request: any two requests,
on any two data sources, run a given callback on the same buffer, and the logs of a logging
callback are equal. -/
theorem start_data_request_payload_independent (self₁ self₂ : UFRDataSource)
    (url₁ url₂ : GURL) (wc_getter₁ wc_getter₂ : WebContentsGetter) :
    self₁.StartDataRequest url₁ wc_getter₁ recordRun [] =
      self₂.StartDataRequest url₂ wc_getter₂ recordRun [] ∧
    self₁.StartDataRequest url₁ wc_getter₁ recordRun [] = [some ⟨UFRDataSource.source⟩] ∧
    (∀ (σ : Type) (callback : GotDataCallback σ) (w : σ),
      self₁.StartDataRequest url₁ wc_getter₁ callback w =
        self₂.StartDataRequest url₂ wc_getter₂ callback w) :=
  ⟨rfl, rfl, fun _ _ _ => rfl⟩

/-- C6: `GetContentSecurityPolicy` maps `StyleSrc` to `'unsafe-inline' https://fonts.googleapis.com`,
`FontSrc` to `https://fonts.gstatic.com` and `ImgSrc` to `'self' data:`, and each result is the
same on every call: after any calls on the data source the directive is mapped as before. -/
theorem csp_style_font_img_exact (self : UFRDataSource) :
    self.GetContentSecurityPolicy CSPDirectiveName.StyleSrc =
      "'unsafe-inline' https://fonts.googleapis.com" ∧
    self.GetContentSecurityPolicy CSPDirectiveName.FontSrc = "https://fonts.gstatic.com" ∧
    self.GetContentSecurityPolicy CSPDirectiveName.ImgSrc = "'self' data:" ∧
    (∀ (σ : Type) (cs : List (Call σ)) (w : σ) (d : CSPDirectiveName),
      (self.callAll cs w).1.GetContentSecurityPolicy d = self.GetContentSecurityPolicy d) := by
  refine ⟨rfl, rfl, rfl, ?_⟩
  intro σ cs w d
  rw [callAll_fst]

/-- C7: `GetSource()` returns `egovernmentos-first-run` on every call, whatever calls were
made on the data source before. -/
theorem get_source_fixed {σ : Type} (self : UFRDataSource) (cs : List (Call σ)) (w : σ) :
    self.GetSource = "egovernmentos-first-run" ∧
    (self.callAll cs w).1.GetSource = "egovernmentos-first-run" ∧
    ((self.callAll cs w).1.call (Call.GetSource : Call σ) (self.callAll cs w).2).2.1 =
      some "egovernmentos-first-run" :=
  ⟨rfl, rfl, rfl⟩

/-- C10: the host `NxtscapeFirstRunUIConfig` registers, under the scheme `chrome`, is
character for character the string `GetSource()` returns; the data source `NxtscapeFirstRun`
adds carries that name, so in a profile that files data sources by name it is the one found
for the registered host. -/
theorem config_host_is_source_name (self : UFRDataSource) :
    NxtscapeFirstRunUIConfig.scheme = "chrome" ∧
    NxtscapeFirstRunUIConfig.host = "egovernmentos-first-run" ∧
    NxtscapeFirstRunUIConfig.host = self.GetSource ∧
    NxtscapeFirstRunUIConfig.host.data = self.GetSource.data ∧
    (∀ (P : Type) (Add : P → UFRDataSource → P) (profile : P),
      ∃ source : UFRDataSource, NxtscapeFirstRun Add profile = Add profile source ∧
        source.GetSource = NxtscapeFirstRunUIConfig.host) ∧
    (∀ profile : Profile,
      (NxtscapeFirstRun Profile.Add profile).sourceFor NxtscapeFirstRunUIConfig.host =
        some UFRDataSource.mk) := by
  refine ⟨rfl, rfl, rfl, rfl, fun _ _ _ => ⟨UFRDataSource.mk, rfl, rfl⟩, ?_⟩
  intro profile
  simp [NxtscapeFirstRun, Profile.Add, Profile.sourceFor, NxtscapeFirstRunUIConfig,
    UFRDataSource.GetSource, List.lookup]

end FirstRun

/-! ## Properties of the patch -/

namespace ProfilesPatch

set_option maxRecDepth 100000

end ProfilesPatch

/-! ## Properties of the served document -/

namespace Page

open FirstRun

/-- Joining lines with line feeds, seen on characters: what has been joined so far, then
each further line after a line feed. -/
theorem intercalate_go_data (ls : List String) (acc : String) :
    (String.intercalate.go acc "\n" ls).data = acc.data ++ joinTail ls := by
  induction ls generalizing acc with
  | nil => simp [String.intercalate.go, joinTail]
  | cons l ls ih =>
    simp only [String.intercalate.go, ih, joinTail, String.data_append, List.append_assoc]
    rfl

/-- The characters of the served document are those of its lines, separated by line feeds. -/
theorem source_data : UFRDataSource.source.data = joinLines sourceLines := by
  unfold UFRDataSource.source
  generalize sourceLines = ls
  cases ls with
  | nil => rfl
  | cons l ls => exact intercalate_go_data ls l

/-- The one style sheet the document imports. -/
theorem importUrls_source :
    importUrls UFRDataSource.source.data =
      ["chrome://resources/css/text_defaults_md.css".data] := by
  rw [source_data]
  decide!

/-- The `script` elements of the document: one, whose tag has no attribute. -/
theorem scriptTags_source : scriptTags UFRDataSource.source.data = ["script".data] := by
  rw [source_data]
  decide!

/-- The `head` and `body` tags of the document. -/
theorem headBodyTags_source :
    headBodyTags UFRDataSource.source.data =
      ["head".data, "/head".data, "body".data, "/body".data] := by
  rw [source_data]
  decide!

/-- The document starts, after white space, with the document type declaration. -/
theorem doctype_source :
    startsWith "<!DOCTYPE html>".data (dropSpace UFRDataSource.source.data) = true := by
  rw [source_data]
  decide!

/-- The document ends, before white space, with the closing `html` tag. -/
theorem endsWithTrimmed_source : endsWithTrimmed "</html>" UFRDataSource.source.data = true := by
  rw [source_data]
  decide!

/-- The link after the words `always accessed again at`. -/
theorem accessLinks_source :
    accessLinks UFRDataSource.source.data =
      [some ("chrome://egovernmentos-first-run".data, "chrome://egovernmentos-first-run".data)] := by
  rw [source_data]
  decide!

/-- The `id` attributes of the document. -/
theorem idValues_source :
    idValues UFRDataSource.source.data =
      ["SVGID_1_".data, "SVGID_2_".data, "SVGID_3_".data, "SVGID_4_".data, "SVGID_5_".data,
       "SVGID_1_".data, "SVGID_2_".data, "SVGID_3_".data, "SVGID_4_".data, "SVGID_5_".data,
       "titanium-bg".data] := by
  rw [source_data]
  decide!

/-- The references `url(#ID)` of the document. -/
theorem urlReferences_source :
    urlReferences UFRDataSource.source.data =
      ["SVGID_3_".data, "SVGID_5_".data, "SVGID_3_".data, "SVGID_5_".data] := by
  rw [source_data]
  decide!

/-- The references `xlink:href="#ID"` of the document. -/
theorem xlinkReferences_source :
    xlinkReferences UFRDataSource.source.data =
      ["SVGID_2_".data, "SVGID_4_".data, "SVGID_2_".data, "SVGID_4_".data] := by
  rw [source_data]
  decide!

/-- C11, as the code has it: the document imports one style sheet,
`chrome://resources/css/text_defaults_md.css`, of scheme `chrome` and host `resources`; the
policy string for `StyleSrc` lists `'unsafe-inline'` and `https://fonts.googleapis.com`; no
source expression of the policy matches the scheme and host of the import, so it is not true
that every imported style sheet is matched. -/
theorem style_src_omits_imported_stylesheet (self : UFRDataSource) :
    importUrls UFRDataSource.source.data =
      ["chrome://resources/css/text_defaults_md.css".data] ∧
    urlScheme "chrome://resources/css/text_defaults_md.css".data = "chrome".data ∧
    urlHost "chrome://resources/css/text_defaults_md.css".data = some "resources".data ∧
    sourceExpressions (self.GetContentSecurityPolicy CSPDirectiveName.StyleSrc) =
      ["'unsafe-inline'".data, "https://fonts.googleapis.com".data] ∧
    (∀ e ∈ sourceExpressions (self.GetContentSecurityPolicy CSPDirectiveName.StyleSrc),
      matchesSource e "chrome://resources/css/text_defaults_md.css".data = false) ∧
    ¬ (∀ u ∈ importUrls UFRDataSource.source.data,
        ∃ e ∈ sourceExpressions (self.GetContentSecurityPolicy CSPDirectiveName.StyleSrc),
          matchesSource e u = true) := by
  have hpol : sourceExpressions (self.GetContentSecurityPolicy CSPDirectiveName.StyleSrc) =
      ["'unsafe-inline'".data, "https://fonts.googleapis.com".data] := by
    show sourceExpressions "'unsafe-inline' https://fonts.googleapis.com" = _
    decide!
  rw [importUrls_source, hpol]
  refine ⟨rfl, by decide!, by decide!, rfl, by decide!, by decide!⟩

/-- C12: the served page needs no script source beyond what `script-src` grants. The document
has exactly one `script` element; its opening tag is `<script>`, with no attribute, so with
no `src`; and the policy string for `ScriptSrc` lists the token `'unsafe-inline'`. -/
theorem page_needs_no_script_source (self : UFRDataSource) :
    scriptTags UFRDataSource.source.data = ["script".data] ∧
    (∀ t ∈ scriptTags UFRDataSource.source.data, hasAttribute "src" t = false) ∧
    "'unsafe-inline'".data ∈
      sourceExpressions (self.GetContentSecurityPolicy CSPDirectiveName.ScriptSrc) := by
  have hpol : sourceExpressions (self.GetContentSecurityPolicy CSPDirectiveName.ScriptSrc) =
      ["'unsafe-inline'".data] := by
    show sourceExpressions "'unsafe-inline'" = _
    decide!
  rw [scriptTags_source, hpol]
  refine ⟨rfl, by decide!, by decide!⟩

/-- C13: the payload is a complete HTML document. Its leading white space removed it begins
with `<!DOCTYPE html>`, its trailing white space removed it ends with `</html>`, and its
`head` and `body` tags are, in this order, one `<head>`, one `</head>`, one `<body>` and one
`</body>`. -/
theorem payload_is_complete_document :
    startsWith "<!DOCTYPE html>".data (dropSpace UFRDataSource.source.data) = true ∧
    endsWithTrimmed "</html>" UFRDataSource.source.data = true ∧
    headBodyTags UFRDataSource.source.data =
      ["head".data, "/head".data, "body".data, "/body".data] :=
  ⟨doctype_source, endsWithTrimmed_source, headBodyTags_source⟩

/-- C14: the words `always accessed again at` occur once in the page and are followed by a
link whose `href` and whose displayed text both are the scheme of `NxtscapeFirstRunUIConfig`,
then `://`, then its host, that is `chrome://egovernmentos-first-run`. -/
theorem access_link_is_config_url :
    accessLinks UFRDataSource.source.data =
      [some ((NxtscapeFirstRunUIConfig.scheme ++ "://" ++ NxtscapeFirstRunUIConfig.host).data,
        (NxtscapeFirstRunUIConfig.scheme ++ "://" ++ NxtscapeFirstRunUIConfig.host).data)] ∧
    NxtscapeFirstRunUIConfig.scheme ++ "://" ++ NxtscapeFirstRunUIConfig.host =
      "chrome://egovernmentos-first-run" := by
  have h : NxtscapeFirstRunUIConfig.scheme ++ "://" ++ NxtscapeFirstRunUIConfig.host =
      "chrome://egovernmentos-first-run" := by decide!
  rw [h]
  exact ⟨accessLinks_source, rfl⟩

/-- C15, as the code has it: the `id` values `SVGID_1_` to `SVGID_5_` each occur twice in the
served document (the logo is inlined twice), so the `id` values are not pairwise distinct,
and every fragment reference `url(#ID)` or `xlink:href="#ID"` of the page names the `id` of
two elements. -/
theorem svg_ids_occur_twice :
    idValues UFRDataSource.source.data =
      ["SVGID_1_".data, "SVGID_2_".data, "SVGID_3_".data, "SVGID_4_".data, "SVGID_5_".data,
       "SVGID_1_".data, "SVGID_2_".data, "SVGID_3_".data, "SVGID_4_".data, "SVGID_5_".data,
       "titanium-bg".data] ∧
    ¬ (idValues UFRDataSource.source.data).Nodup ∧
    urlReferences UFRDataSource.source.data ++ xlinkReferences UFRDataSource.source.data =
      ["SVGID_3_".data, "SVGID_5_".data, "SVGID_3_".data, "SVGID_5_".data,
       "SVGID_2_".data, "SVGID_4_".data, "SVGID_2_".data, "SVGID_4_".data] ∧
    (∀ r ∈ urlReferences UFRDataSource.source.data ++
        xlinkReferences UFRDataSource.source.data,
      elementsWithId UFRDataSource.source.data r = 2) := by
  unfold elementsWithId
  rw [idValues_source, urlReferences_source, xlinkReferences_source]
  refine ⟨rfl, by decide!, rfl, by decide!⟩

end Page

/-! ## Properties of the page script -/

namespace PageScript

/-- A call of `update()` leaves `fadeSpeed` as it is. -/
theorem update_fadeSpeed (width height : ℚ) (p : Particle) :
    (Particle.update width height p).fadeSpeed = p.fadeSpeed := by
  unfold Particle.update
  split <;> rfl

/-- The opacity and the flag after a call of `update()` on a particle that fades in. -/
theorem update_fadingIn (width height : ℚ) (p : Particle) (h : p.fadingIn = true) :
    (Particle.update width height p).opacity = p.opacity + p.fadeSpeed ∧
    (Particle.update width height p).fadingIn =
      if p.opacity + p.fadeSpeed ≥ 0.8 then false else true := by
  constructor <;> simp [Particle.update, h]

/-- The opacity and the flag after a call of `update()` on a particle that fades out. -/
theorem update_fadingOut (width height : ℚ) (p : Particle) (h : p.fadingIn = false) :
    (Particle.update width height p).opacity = p.opacity - p.fadeSpeed ∧
    (Particle.update width height p).fadingIn =
      if p.opacity - p.fadeSpeed ≤ 0.1 then true else false := by
  constructor <;> simp [Particle.update, h]

/-- A call of `update()` keeps `OpacityInv`. -/
theorem update_opacityInv (width height : ℚ) (p : Particle) (h : OpacityInv p) :
    OpacityInv (Particle.update width height p) := by
  obtain ⟨hs, ht, hf⟩ := h
  refine ⟨by rw [update_fadeSpeed, hs], ?_, ?_⟩
  · intro hq
    cases hfi : p.fadingIn with
    | true =>
      obtain ⟨ho, hfl⟩ := update_fadingIn width height p hfi
      obtain ⟨h1, h2⟩ := ht hfi
      rw [hfl] at hq
      rw [ho, hs]
      rw [hs] at hq
      split_ifs at hq with hc
      constructor <;> norm_num at * <;> linarith
    | false =>
      obtain ⟨ho, hfl⟩ := update_fadingOut width height p hfi
      obtain ⟨h1, h2⟩ := hf hfi
      rw [hfl] at hq
      rw [ho, hs]
      rw [hs] at hq
      split_ifs at hq with hc
      constructor <;> norm_num at * <;> linarith
  · intro hq
    cases hfi : p.fadingIn with
    | true =>
      obtain ⟨ho, hfl⟩ := update_fadingIn width height p hfi
      obtain ⟨h1, h2⟩ := ht hfi
      rw [hfl] at hq
      rw [ho, hs]
      rw [hs] at hq
      split_ifs at hq with hc
      constructor <;> norm_num at * <;> linarith
    | false =>
      obtain ⟨ho, hfl⟩ := update_fadingOut width height p hfi
      obtain ⟨h1, h2⟩ := hf hfi
      rw [hfl] at hq
      rw [ho, hs]
      rw [hs] at hq
      split_ifs at hq with hc
      constructor <;> norm_num at * <;> linarith

/-- Every number of calls of `update()` keeps `OpacityInv`. -/
theorem updates_opacityInv (width height : ℚ) (p : Particle) (h : OpacityInv p) (n : Nat) :
    OpacityInv (Particle.updates width height n p) := by
  induction n with
  | zero => exact h
  | succ n ih => exact update_opacityInv width height _ ih

/-- The constructor creates a particle that fades in at speed 0.005, of opacity at least 0.1
and below 0.6, whenever the value drawn for the opacity is at least 0 and below 1. -/
theorem new_opacity (width height r₁ r₂ r₃ r₄ r₅ r₆ r₇ : ℚ) (h0 : 0 ≤ r₇) (h1 : r₇ < 1) :
    0.1 ≤ (Particle.new width height r₁ r₂ r₃ r₄ r₅ r₆ r₇).opacity ∧
    (Particle.new width height r₁ r₂ r₃ r₄ r₅ r₆ r₇).opacity < 0.6 ∧
    (Particle.new width height r₁ r₂ r₃ r₄ r₅ r₆ r₇).fadingIn = true ∧
    (Particle.new width height r₁ r₂ r₃ r₄ r₅ r₆ r₇).fadeSpeed = 0.005 := by
  refine ⟨?_, ?_, rfl, rfl⟩ <;> simp only [Particle.new] <;> norm_num <;> linarith

/-- C16: over exact rational arithmetic, for every particle as the constructor creates it
(opacity at least 0.1 and below 0.6, `fadingIn` true, `fadeSpeed` 0.005) and every `n`, after
`n` calls of `update()` the opacity lies between 0.095 and 0.805; and then, before the next
step, the opacity is below 0.8 if `fadingIn` is true and above 0.1 if it is false. -/
theorem opacity_stays_in_band (width height : ℚ) (p : Particle)
    (hlo : 0.1 ≤ p.opacity) (hhi : p.opacity < 0.6) (hin : p.fadingIn = true)
    (hspeed : p.fadeSpeed = 0.005) (n : Nat) :
    0.095 ≤ (Particle.updates width height n p).opacity ∧
    (Particle.updates width height n p).opacity ≤ 0.805 ∧
    ((Particle.updates width height n p).fadingIn = true →
      (Particle.updates width height n p).opacity < 0.8) ∧
    ((Particle.updates width height n p).fadingIn = false →
      0.1 < (Particle.updates width height n p).opacity) := by
  have h0 : OpacityInv p := by
    refine ⟨hspeed, fun _ => ?_, fun hf => ?_⟩
    · constructor <;> norm_num at * <;> linarith
    · rw [hin] at hf
      cases hf
  obtain ⟨_, ht, hf⟩ := updates_opacityInv width height p h0 n
  refine ⟨?_, ?_, fun h => (ht h).2, fun h => (hf h).1⟩
  · cases hfi : (Particle.updates width height n p).fadingIn with
    | true => have := ht hfi; norm_num at *; linarith
    | false => have := hf hfi; norm_num at *; linarith
  · cases hfi : (Particle.updates width height n p).fadingIn with
    | true => have := ht hfi; norm_num at *; linarith
    | false => have := hf hfi; norm_num at *; linarith

/-- The statement of `opacity_stays_in_band` for the particle the constructor creates on a
canvas of 800 by 600 when every draw is 1/2 (opacity 0.35), after 100 calls of `update()`. -/
theorem opacity_stays_in_band_witness :
    (0.1 ≤ (Particle.new 800 600 (1/2) (1/2) (1/2) (1/2) (1/2) (1/2) (1/2)).opacity ∧
      (Particle.new 800 600 (1/2) (1/2) (1/2) (1/2) (1/2) (1/2) (1/2)).opacity < 0.6 ∧
      (Particle.new 800 600 (1/2) (1/2) (1/2) (1/2) (1/2) (1/2) (1/2)).fadingIn = true ∧
      (Particle.new 800 600 (1/2) (1/2) (1/2) (1/2) (1/2) (1/2) (1/2)).fadeSpeed = 0.005) ∧
    0.095 ≤ (Particle.updates 800 600 100
      (Particle.new 800 600 (1/2) (1/2) (1/2) (1/2) (1/2) (1/2) (1/2))).opacity ∧
    (Particle.updates 800 600 100
      (Particle.new 800 600 (1/2) (1/2) (1/2) (1/2) (1/2) (1/2) (1/2))).opacity ≤ 0.805 :=
  have h := new_opacity 800 600 (1/2) (1/2) (1/2) (1/2) (1/2) (1/2) (1/2)
    (by norm_num) (by norm_num)
  have k := opacity_stays_in_band 800 600
    (Particle.new 800 600 (1/2) (1/2) (1/2) (1/2) (1/2) (1/2) (1/2))
    h.1 h.2.1 h.2.2.1 h.2.2.2 100
  ⟨h, k.1, k.2.1⟩

/-- The position and the velocity after a call of `update()`. -/
theorem update_position (width height : ℚ) (p : Particle) :
    (Particle.update width height p).x = p.x + p.vx ∧
    (Particle.update width height p).vx =
      (if p.x + p.vx < 0 ∨ p.x + p.vx > width then p.vx * -1 else p.vx) ∧
    (Particle.update width height p).y = p.y + p.vy ∧
    (Particle.update width height p).vy =
      (if p.y + p.vy < 0 ∨ p.y + p.vy > height then p.vy * -1 else p.vy) := by
  unfold Particle.update
  split <;> exact ⟨rfl, rfl, rfl, rfl⟩

/-- A step on one axis keeps `AxisInv`. -/
theorem axis_step (limit pos vel a : ℚ) (h : AxisInv limit pos vel a) :
    AxisInv limit (pos + vel)
      (if pos + vel < 0 ∨ pos + vel > limit then vel * -1 else vel) a := by
  obtain ⟨ha, hpos⟩ := h
  by_cases hc : pos + vel < 0 ∨ pos + vel > limit
  · rw [if_pos hc]
    refine ⟨by rw [mul_neg_one, abs_neg, ha], ?_⟩
    rcases hpos with ⟨h0, h1⟩ | ⟨h0, h1, h2, h3⟩ | ⟨h0, h1, h2, h3⟩
    · rcases hc with hc | hc
      · right; right
        refine ⟨hc, by linarith, by linarith, by linarith⟩
      · right; left
        refine ⟨hc, by linarith, by linarith, by linarith⟩
    · rcases hc with hc | hc <;> linarith
    · rcases hc with hc | hc <;> linarith
  · rw [if_neg hc]
    refine ⟨ha, Or.inl ?_⟩
    constructor
    · by_contra hlt
      exact hc (Or.inl (lt_of_not_ge hlt))
    · by_contra hgt
      exact hc (Or.inr (lt_of_not_ge hgt))

/-- What `AxisInv` says of the position: it is at most the speed away from the canvas, and
off the canvas the velocity points back to it. -/
theorem axis_bounds (limit pos vel a : ℚ) (h : AxisInv limit pos vel a) :
    -a ≤ pos ∧ pos ≤ limit + a ∧ (pos < 0 → 0 < vel) ∧ (limit < pos → vel < 0) := by
  obtain ⟨ha, hpos⟩ := h
  have hnn : 0 ≤ a := ha ▸ abs_nonneg vel
  rcases hpos with ⟨h0, h1⟩ | ⟨h0, h1, h2, h3⟩ | ⟨h0, h1, h2, h3⟩
  · refine ⟨by linarith, by linarith, fun h => ?_, fun h => ?_⟩ <;> linarith
  · have hv : a = -vel := by rw [← ha, abs_of_neg h1]
    refine ⟨by linarith, by linarith, fun h => ?_, fun _ => h1⟩
    linarith
  · have hv : a = vel := by rw [← ha, abs_of_pos h1]
    refine ⟨by linarith, by linarith, fun _ => h1, fun h => ?_⟩
    linarith

/-- Every number of calls of `update()` keeps `AxisInv` on both axes. -/
theorem updates_axisInv (width height : ℚ) (p : Particle)
    (hx : AxisInv width p.x p.vx |p.vx|) (hy : AxisInv height p.y p.vy |p.vy|) (n : Nat) :
    AxisInv width (Particle.updates width height n p).x
      (Particle.updates width height n p).vx |p.vx| ∧
    AxisInv height (Particle.updates width height n p).y
      (Particle.updates width height n p).vy |p.vy| := by
  induction n with
  | zero => exact ⟨hx, hy⟩
  | succ n ih =>
    obtain ⟨ihx, ihy⟩ := ih
    obtain ⟨e1, e2, e3, e4⟩ :=
      update_position width height (Particle.updates width height n p)
    simp only [Particle.updates]
    rw [e1, e2, e3, e4]
    exact ⟨axis_step _ _ _ _ ihx, axis_step _ _ _ _ ihy⟩

/-- C17: over exact rational arithmetic, with `width` and `height` fixed, for every particle
that starts on the canvas (`0 ≤ x ≤ width`, `0 ≤ y ≤ height`, so both are non-negative) with
any velocities, after any number of calls of `update()` the position is at most the speed
away from the canvas on each axis, `-|vx| ≤ x ≤ width + |vx|` and `-|vy| ≤ y ≤ height + |vy|`,
the speeds are unchanged, and where the particle is off the canvas its velocity on that axis
points back to it. -/
theorem position_stays_near_canvas (width height : ℚ) (p : Particle)
    (hx0 : 0 ≤ p.x) (hx1 : p.x ≤ width) (hy0 : 0 ≤ p.y) (hy1 : p.y ≤ height) (n : Nat) :
    (-|p.vx| ≤ (Particle.updates width height n p).x ∧
      (Particle.updates width height n p).x ≤ width + |p.vx|) ∧
    (-|p.vy| ≤ (Particle.updates width height n p).y ∧
      (Particle.updates width height n p).y ≤ height + |p.vy|) ∧
    (|(Particle.updates width height n p).vx| = |p.vx| ∧
      |(Particle.updates width height n p).vy| = |p.vy|) ∧
    ((Particle.updates width height n p).x < 0 → 0 < (Particle.updates width height n p).vx) ∧
    (width < (Particle.updates width height n p).x →
      (Particle.updates width height n p).vx < 0) ∧
    ((Particle.updates width height n p).y < 0 → 0 < (Particle.updates width height n p).vy) ∧
    (height < (Particle.updates width height n p).y →
      (Particle.updates width height n p).vy < 0) := by
  obtain ⟨hx, hy⟩ := updates_axisInv width height p
    ⟨rfl, Or.inl ⟨hx0, hx1⟩⟩ ⟨rfl, Or.inl ⟨hy0, hy1⟩⟩ n
  obtain ⟨a1, a2, a3, a4⟩ := axis_bounds _ _ _ _ hx
  obtain ⟨b1, b2, b3, b4⟩ := axis_bounds _ _ _ _ hy
  exact ⟨⟨a1, a2⟩, ⟨b1, b2⟩, ⟨hx.1, hy.1⟩, a3, a4, b3, b4⟩

/-- The statement of `position_stays_near_canvas` for `cornerParticle` after one call of
`update()`: it is at 13, 14, off the canvas, and both velocities have been turned round. -/
theorem position_stays_near_canvas_witness :
    (0 ≤ cornerParticle.x ∧ cornerParticle.x ≤ 10 ∧
      0 ≤ cornerParticle.y ∧ cornerParticle.y ≤ 10) ∧
    (Particle.updates 10 10 1 cornerParticle).x = 13 ∧
    (Particle.updates 10 10 1 cornerParticle).y = 14 ∧
    (Particle.updates 10 10 1 cornerParticle).x ≤ 10 + |cornerParticle.vx| ∧
    (Particle.updates 10 10 1 cornerParticle).vx < 0 ∧
    (Particle.updates 10 10 1 cornerParticle).vy < 0 :=
  have h0 : 0 ≤ cornerParticle.x ∧ cornerParticle.x ≤ 10 ∧
      0 ≤ cornerParticle.y ∧ cornerParticle.y ≤ 10 := by
    simp only [cornerParticle]
    norm_num
  have ex : (Particle.updates 10 10 1 cornerParticle).x = 13 := by
    show (Particle.update 10 10 cornerParticle).x = 13
    rw [(update_position 10 10 cornerParticle).1]
    simp only [cornerParticle]
    norm_num
  have ey : (Particle.updates 10 10 1 cornerParticle).y = 14 := by
    show (Particle.update 10 10 cornerParticle).y = 14
    rw [(update_position 10 10 cornerParticle).2.2.1]
    simp only [cornerParticle]
    norm_num
  have k := position_stays_near_canvas 10 10 cornerParticle h0.1 h0.2.1 h0.2.2.1 h0.2.2.2 1
  ⟨h0, ex, ey, k.1.2, k.2.2.2.2.1 (by rw [ex]; norm_num),
    k.2.2.2.2.2.2 (by rw [ey]; norm_num)⟩

end PageScript
